import Mathlib

/-!
Verification of the Hunt Progression Engine of the firebase-exporouter-app
repository, a location-based scavenger-hunt application.

The development shallowly embeds the core logic:

* the Firestore-backed collection operations of src/lib/database-service.ts
  (check-ins, player hunts, hunt progress, time conversion), modelled as pure
  functions over an explicit storage state `DB`;
* the per-screen hunt-progression logic of the player screens
  (condition evaluation, proximity gating, and the check-in handler),
  modelled from the two inline copies in src/unnamed/part_007 and
  src/unnamed/part_006.

Document identifiers (user, hunt, location, playerHunt) are opaque strings in
the source, compared only with strict equality; they are modelled as `Nat`.
Firestore `serverTimestamp()` values are modelled as a `Nat` instant supplied
by the caller.  A Firestore query with `where` clauses over a collection is
modelled as `List.filter` over the collection list, and `docs[0]` as `head?`
(equivalently `find?`).  A thrown JS `Error` is modelled as `Except.error`
carrying the message; an operation that throws performs no write, which the
embedding expresses by returning only the error and no new state.
-/

/-- Status union of the PlayerHunt interface in src/lib/database-service.ts. -/
inductive PlayerHuntStatus where
  | STARTED
  | NOT_STARTED
  | COMPLETED
  | ABANDONED
deriving DecidableEq, Repr

/-- The Location ("checkpoint") interface of database-service.ts, restricted to
the fields the progression engine reads (`locationId`, `huntId`).  The display
fields (`locationName`, `explanation`) and the coordinates are never consulted
by the progress or check-in storage operations; the coordinates enter only
through the geodesy functions, which take raw latitude/longitude arguments. -/
structure Location where
  locationId : Nat
  huntId : Nat
deriving DecidableEq, Repr

/-- The CheckIn interface of database-service.ts. -/
structure CheckIn where
  checkInId : Nat
  userId : Nat
  huntId : Nat
  locationId : Nat
  timestamp : Nat
deriving DecidableEq, Repr

/-- The PlayerHunt interface of database-service.ts. -/
structure PlayerHunt where
  playerHuntId : Nat
  userId : Nat
  huntId : Nat
  status : PlayerHuntStatus
  startTime : Nat
  completionTime : Option Nat
deriving DecidableEq, Repr

/-- The Firestore collections the progression engine touches, as one explicit
storage state. -/
structure DB where
  locations : List Location
  checkIns : List CheckIn
  playerHunts : List PlayerHunt
deriving DecidableEq, Repr

/-- JavaScript `Math.round`: round half away from zero for nonnegative inputs,
i.e. `Math.round(x) = Math.floor(x + 0.5)`.  The source only rounds
nonnegative percentages. -/
def jsRound (q : ℚ) : ℤ := ⌊q + 1 / 2⌋

/-- `getHuntLocations(huntId)` of database-service.ts: the `locations`
collection filtered by `huntId`. -/
def getHuntLocations (locations : List Location) (huntId : Nat) : List Location :=
  locations.filter (fun l => l.huntId == huntId)

/-- `getHuntCheckIns(userId, huntId)` of database-service.ts: the `checkIns`
collection filtered by `userId` and `huntId` (the `orderBy timestamp` clause
only orders the result and does not change membership or length). -/
def getHuntCheckIns (checkIns : List CheckIn) (userId huntId : Nat) : List CheckIn :=
  checkIns.filter (fun ci => ci.userId == userId && ci.huntId == huntId)

/-- `getCheckIn(userId, huntId, locationId)` of database-service.ts: query the
`checkIns` collection by the (user, hunt, location) triple and return the
first document, or `none` when the query result is empty. -/
def getCheckIn (db : DB) (userId huntId locationId : Nat) : Option CheckIn :=
  (db.checkIns.filter
    (fun ci => ci.userId == userId && ci.huntId == huntId && ci.locationId == locationId)).head?

/-- `createCheckIn(userId, huntId, locationId)` of database-service.ts: if a
check-in for the same triple already exists, throw
`Already checked in to this location` (no write happens); otherwise append one
new CheckIn document with a server timestamp.  `newId` models the generated
document id and `now` the server timestamp. -/
def createCheckIn (db : DB) (userId huntId locationId : Nat) (newId now : Nat) :
    Except String DB :=
  match getCheckIn db userId huntId locationId with
  | some _ => .error "Already checked in to this location"
  | none => .ok { db with checkIns := db.checkIns ++
      [{ checkInId := newId, userId := userId, huntId := huntId,
         locationId := locationId, timestamp := now }] }

/-- `getPlayerHunt(userId, huntId)` of database-service.ts: query the
`playerHunts` collection by user and hunt and return the first document. -/
def getPlayerHunt (db : DB) (userId huntId : Nat) : Option PlayerHunt :=
  (db.playerHunts.filter (fun ph => ph.userId == userId && ph.huntId == huntId)).head?

/-- `startPlayerHunt(userId, huntId)` of database-service.ts: if any
PlayerHunt document for the pair exists, throw
`Hunt already started by this player` (no write happens); otherwise append one
new STARTED document with a server timestamp and no completion time. -/
def startPlayerHunt (db : DB) (userId huntId : Nat) (newId now : Nat) :
    Except String DB :=
  match getPlayerHunt db userId huntId with
  | some _ => .error "Hunt already started by this player"
  | none => .ok { db with playerHunts := db.playerHunts ++
      [{ playerHuntId := newId, userId := userId, huntId := huntId,
         status := .STARTED, startTime := now, completionTime := none }] }

/-- `updatePlayerHuntStatus(playerHuntId, status, setCompletionTime)` of
database-service.ts: unconditionally write the requested status onto the
document with the given id; additionally set the completion time when
`setCompletionTime` is true and the new status is COMPLETED.  The source
performs no check of the current status before updating.  The write applied
to the matching document is factored out as `applyStatusUpdate`. -/
def applyStatusUpdate (playerHuntId : Nat) (status : PlayerHuntStatus)
    (setCompletionTime : Bool) (now : Nat) (ph : PlayerHunt) : PlayerHunt :=
  if ph.playerHuntId == playerHuntId then
    { ph with
        status := status,
        completionTime :=
          if setCompletionTime && (status == .COMPLETED) then some now
          else ph.completionTime }
  else ph

def updatePlayerHuntStatus (db : DB) (playerHuntId : Nat)
    (status : PlayerHuntStatus) (setCompletionTime : Bool) (now : Nat) : DB :=
  { db with playerHunts :=
      db.playerHunts.map (applyStatusUpdate playerHuntId status setCompletionTime now) }

/-- The record returned by `getHuntProgress`. -/
structure Progress where
  completed : Nat
  total : Nat
  percentage : ℤ
deriving DecidableEq, Repr

/-- `getHuntProgress(userId, huntId)` of database-service.ts:
`total` is the length of the location list of the hunt, `completed` the length
of the check-in list of the user for the hunt, and
`percentage = Math.round(completed / total * 100)` when `total > 0`, else 0. -/
def getHuntProgress (db : DB) (userId huntId : Nat) : Progress :=
  let total := (getHuntLocations db.locations huntId).length
  let completed := (getHuntCheckIns db.checkIns userId huntId).length
  let percentage := if total > 0 then jsRound ((completed : ℚ) / (total : ℚ) * 100) else 0
  { completed := completed, total := total, percentage := percentage }

/-- The status field of the PlayerHunt document with a given id, read back
from storage. -/
def statusOf (db : DB) (playerHuntId : Nat) : Option PlayerHuntStatus :=
  (db.playerHunts.find? (fun ph => ph.playerHuntId == playerHuntId)).map (·.status)

/-- The completion-time field of the PlayerHunt document with a given id. -/
def completionTimeOf (db : DB) (playerHuntId : Nat) : Option (Option Nat) :=
  (db.playerHunts.find? (fun ph => ph.playerHuntId == playerHuntId)).map (·.completionTime)

/-- Number of CheckIn documents for one (user, hunt, location) triple. -/
def countTriple (db : DB) (userId huntId locationId : Nat) : Nat :=
  (db.checkIns.filter
    (fun ci => ci.userId == userId && ci.huntId == huntId && ci.locationId == locationId)).length

/-- Number of PlayerHunt documents for one (user, hunt) pair in STARTED
(non-terminal) status. -/
def countStartedPair (db : DB) (userId huntId : Nat) : Nat :=
  (db.playerHunts.filter
    (fun ph => ph.userId == userId && ph.huntId == huntId && ph.status == .STARTED)).length

/-! ## Condition evaluator (src/unnamed/part_007, `isLocationAvailable`)

The Condition interface of database-service.ts is a loosely typed record with
a `type` tag in `REQUIRED_LOCATION | TIME_WINDOW` and optional payload fields;
the evaluator reads exactly the fields of the matching tag, so the embedding
uses a tagged union with one constructor per tag.

Time values are modelled as lists of characters; JavaScript compares strings
with `<` and `>` lexicographically by code unit, which on these ASCII "HH:MM"
values is the lexicographic order on the character lists.  In the source the
TIME_WINDOW payload is stored in UTC and passed through `convertUTCTimeToLocal`
at the start of the comparison; the payload of the `TIME_WINDOW` constructor
below is that already-converted local pair, and `currentTime` is the local
wall-clock "HH:MM" string the source builds from `new Date()`.  The conversion
functions themselves are modelled separately below. -/

/-- Tagged union of the two condition kinds read by `isLocationAvailable`. -/
inductive HuntCondition where
  | REQUIRED_LOCATION (requiredLocationId : Nat)
  | TIME_WINDOW (startTime endTime : List Char)
deriving DecidableEq, Repr

/-- One iteration of the condition loop of `isLocationAvailable`
(src/unnamed/part_007 lines 165-186): a REQUIRED_LOCATION condition passes
iff `checkIns.find` locates a check-in for the referenced location; a
TIME_WINDOW condition passes iff the current local time is neither strictly
below the start nor strictly above the end. -/
def evalCondition (checkIns : List CheckIn) (currentTime : List Char) :
    HuntCondition → Bool
  | .REQUIRED_LOCATION reqId =>
      (checkIns.find? (fun ci => ci.locationId == reqId)).isSome
  | .TIME_WINDOW startTime endTime =>
      !(decide (currentTime < startTime) || decide (endTime < currentTime))

/-- `isLocationAvailable` of src/unnamed/part_007: every condition of the
checkpoint must pass; any failing condition returns false early, and an empty
condition list returns true. -/
def isLocationAvailable (conditions : List HuntCondition) (checkIns : List CheckIn)
    (currentTime : List Char) : Bool :=
  conditions.all (evalCondition checkIns currentTime)

/-- A concrete check-in record used by witnesses. -/
def ciSeven : CheckIn :=
  { checkInId := 1, userId := 0, huntId := 0, locationId := 7, timestamp := 4 }

/-- A concrete STARTED PlayerHunt record, used by witnesses. -/
def phStarted : PlayerHunt :=
  { playerHuntId := 3
    userId := 0
    huntId := 0
    status := .STARTED
    startTime := 0
    completionTime := none }

/-- A concrete storage state with one STARTED PlayerHunt, used by witnesses. -/
def dbStarted : DB :=
  { locations := [], checkIns := [], playerHunts := [phStarted] }

/-- A concrete COMPLETED PlayerHunt record. -/
def phDone : PlayerHunt :=
  { playerHuntId := 3
    userId := 0
    huntId := 0
    status := .COMPLETED
    startTime := 0
    completionTime := some 5 }

/-- A concrete storage state with one COMPLETED PlayerHunt. -/
def dbCompleted : DB :=
  { locations := [], checkIns := [], playerHunts := [phDone] }

/-! ## Check-in handler (src/unnamed/part_007, `handleCheckIn`) -/

/-- The body of `handleCheckIn` (src/unnamed/part_007 lines 291-319) after the
proximity gate has passed: create the check-in, recompute the hunt progress
from the updated storage, and when the percentage reaches 100 update the
PlayerHunt of the player (non-null id `phId`) to COMPLETED with its
completion timestamp set.  A thrown `createCheckIn` error is caught by the
surrounding try/catch, leaving storage unchanged. -/
def handleCheckIn (db : DB) (u h loc phId newId now : Nat) : DB :=
  match createCheckIn db u h loc newId now with
  | .error _ => db
  | .ok db' =>
      if (getHuntProgress db' u h).percentage = 100 then
        updatePlayerHuntStatus db' phId .COMPLETED true now
      else db'

/-- The CheckIn document that `createCheckIn` writes. -/
def newCheckInRec (u h loc newId now : Nat) : CheckIn :=
  { checkInId := newId
    userId := u
    huntId := h
    locationId := loc
    timestamp := now }

/-- A two-checkpoint hunt where one checkpoint is already checked in. -/
def dbTwo : DB :=
  { locations := [{ locationId := 0, huntId := 0 }, { locationId := 1, huntId := 0 }]
    checkIns := [{ checkInId := 0, userId := 0, huntId := 0, locationId := 0, timestamp := 0 }]
    playerHunts := [phStarted] }

/-- A 201-checkpoint hunt (hunt 0) where the player has 199 distinct
check-ins (locations 0 to 198) and a STARTED PlayerHunt (id 3). -/
def dbBig : DB :=
  { locations := (List.range 201).map (fun i => { locationId := i, huntId := 0 })
    checkIns := (List.range 199).map (fun i =>
      { checkInId := i, userId := 0, huntId := 0, locationId := i, timestamp := 0 })
    playerHunts := [phStarted] }


/-! ## Time conversion (database-service.ts, `convertLocalTimeToUTC` and
`convertUTCTimeToLocal`)

Time strings are modelled as lists of characters.  JavaScript
`str.split(':')` is `splitCh`, `Number` on a digit field is `parseDigits`
(a non-digit or missing field makes the JS `Date` arithmetic produce NaN
outputs; the embedding returns `none` there), and
`n.toString().padStart(2, '0')` for the two-digit clock fields is `pad2`.
The `Date` round trip `setHours/getUTCHours` (resp. `setUTCHours/getHours`)
subtracts (resp. adds) the environment time-zone offset and wraps within the
day; `offset` is the fixed whole-minute offset of the environment, in
minutes ahead of UTC, and the wrap is modulo 1440 minutes. -/

/-- The character of a decimal digit. -/
def asciiDigit (n : Nat) : Char := Char.ofNat (48 + n)

/-- `n.toString().padStart(2, '0')` for the clock fields of the source
(always below 100). -/
def pad2 (n : Nat) : List Char :=
  if n < 10 then ['0', asciiDigit n] else [asciiDigit (n / 10), asciiDigit (n % 10)]

/-- JavaScript `String.prototype.split` with a one-character separator;
`acc` is the accumulator of the current field, in reverse. -/
def splitCh (sep : Char) : List Char → List Char → List (List Char)
  | [], acc => [acc.reverse]
  | c :: cs, acc =>
    if c = sep then acc.reverse :: splitCh sep cs [] else splitCh sep cs (c :: acc)

def parseDigitsAux : List Char → Nat → Option Nat
  | [], acc => some acc
  | c :: cs, acc =>
    if c.isDigit then parseDigitsAux cs (acc * 10 + (c.toNat - 48)) else none

/-- JavaScript `Number` restricted to nonempty all-digit fields; any other
field is modelled as `none` (NaN). -/
def parseDigits : List Char → Option Nat
  | [] => none
  | cs => parseDigitsAux cs 0

/-- `convertLocalTimeToUTC` of database-service.ts: split on `:`, read the
first two fields as hours and minutes (`const [hours, minutes] = ...`),
convert through a `Date` to UTC, and emit `HH:MM:00` — with a trailing
seconds field. -/
def convertLocalTimeToUTC (offset : Int) (s : List Char) : Option (List Char) :=
  match splitCh ':' s [] with
  | hs :: ms :: _ =>
    match parseDigits hs, parseDigits ms with
    | some hours, some minutes =>
        let utc : Int := ((hours : Int) * 60 + (minutes : Int) - offset) % 1440
        some (pad2 (utc / 60).toNat ++ ':' :: (pad2 (utc % 60).toNat ++ [':', '0', '0']))
    | _, _ => none
  | _ => none

/-- `convertUTCTimeToLocal` of database-service.ts: split on `:`, read the
first two fields only — a trailing `:00` seconds field is ignored by the
destructuring — convert through a `Date` to local, and emit `HH:MM`. -/
def convertUTCTimeToLocal (offset : Int) (s : List Char) : Option (List Char) :=
  match splitCh ':' s [] with
  | hs :: ms :: _ =>
    match parseDigits hs, parseDigits ms with
    | some hours, some minutes =>
        let loc : Int := ((hours : Int) * 60 + (minutes : Int) + offset) % 1440
        some (pad2 (loc / 60).toNat ++ ':' :: pad2 (loc % 60).toNat)
    | _, _ => none
  | _ => none

/-! ## Geodesy and the proximity gate (src/unnamed/part_007 and part_006)

`calculateDistance` is the haversine distance of both player screens
(identical text in part_007 lines 195-208 and part_006 lines 530-543); the
source computes with JavaScript doubles, embedded here over the reals.
`Math.atan2` is `atan2`.  The two screens then diverge in
`isUserNearLocation`, the proximity gate of `handleCheckIn`:
part_007 (lines 278-289) returns `distance <= 50`; part_006 (lines 545-560)
computes the same distance, ignores it, and instead requires the raw
latitude and longitude deltas to be below 0.0001 degrees (the comment calls
this "approximately 11 meters").  In both screens `handleCheckIn` rejects
the attempt with the `Too Far` alert exactly when `isUserNearLocation` is
false. -/

/-- JavaScript `Math.atan2`. -/
noncomputable def atan2 (y x : Real) : Real :=
  if 0 < x then Real.arctan (y / x)
  else if x < 0 ∧ 0 ≤ y then Real.arctan (y / x) + Real.pi
  else if x < 0 ∧ y < 0 then Real.arctan (y / x) - Real.pi
  else if x = 0 ∧ 0 < y then Real.pi / 2
  else if x = 0 ∧ y < 0 then -(Real.pi / 2)
  else 0

/-- `calculateDistance(lat1, lon1, lat2, lon2)` of the player screens:
haversine great-circle distance in meters with Earth radius 6371e3. -/
noncomputable def calculateDistance (lat1 lon1 lat2 lon2 : ℝ) : ℝ :=
  let R : ℝ := 6371000
  let phi1 := lat1 * Real.pi / 180
  let phi2 := lat2 * Real.pi / 180
  let dphi := (lat2 - lat1) * Real.pi / 180
  let dlam := (lon2 - lon1) * Real.pi / 180
  let a := Real.sin (dphi / 2) * Real.sin (dphi / 2)
    + Real.cos phi1 * Real.cos phi2 * Real.sin (dlam / 2) * Real.sin (dlam / 2)
  let c := 2 * atan2 (Real.sqrt a) (Real.sqrt (1 - a))
  R * c

namespace Part007

/-- `isUserNearLocation` of src/unnamed/part_007: the user may check in iff
the haversine distance to the checkpoint is at most 50 meters. -/
def isUserNearLocation (userLat userLon lat lon : ℝ) : Prop :=
  calculateDistance userLat userLon lat lon ≤ 50

end Part007

namespace Part006

/-- `isUserNearLocation` of src/unnamed/part_006: the haversine distance is
computed and then ignored; the check requires both raw coordinate deltas to
be below 0.0001 degrees. -/
def isUserNearLocation (userLat userLon lat lon : ℝ) : Prop :=
  |userLat - lat| < 0.0001 ∧ |userLon - lon| < 0.0001

end Part006

/-! ## Theorems -/

/-- Claim C8: a checkpoint whose condition list is empty is reachable for
every check-in history and every evaluation time. -/
theorem c8_no_conditions (checkIns : List CheckIn) (currentTime : List Char) :
    isLocationAvailable [] checkIns currentTime = true := rfl

/-- Claim C6: a REQUIRED_LOCATION condition referencing location `reqId`
passes iff the check-in set contains an entry for `reqId`; its value does not
depend on the evaluation time; and while no such check-in exists, any
checkpoint carrying the condition is not reachable. -/
theorem c6_required_location (checkIns : List CheckIn) (t t' : List Char) (reqId : Nat)
    (conds : List HuntCondition)
    (hmem : HuntCondition.REQUIRED_LOCATION reqId ∈ conds) :
    (evalCondition checkIns t (.REQUIRED_LOCATION reqId) = true ↔
      ∃ ci ∈ checkIns, ci.locationId = reqId)
    ∧ evalCondition checkIns t (.REQUIRED_LOCATION reqId)
        = evalCondition checkIns t' (.REQUIRED_LOCATION reqId)
    ∧ ((¬ ∃ ci ∈ checkIns, ci.locationId = reqId) →
        isLocationAvailable conds checkIns t = false) := by
  have hkey : evalCondition checkIns t (.REQUIRED_LOCATION reqId) = true ↔
      ∃ ci ∈ checkIns, ci.locationId = reqId := by
    show (checkIns.find? (fun ci => ci.locationId == reqId)).isSome = true ↔ _
    rw [List.find?_isSome]
    constructor
    · rintro ⟨ci, hm, hp⟩
      exact ⟨ci, hm, by simpa using hp⟩
    · rintro ⟨ci, hm, hp⟩
      exact ⟨ci, hm, by simpa using hp⟩
  refine ⟨hkey, rfl, ?_⟩
  intro hno
  rw [Bool.eq_false_iff]
  intro hall
  have := (List.all_eq_true.1 hall) _ hmem
  exact hno (hkey.1 this)

/-- Witness for C6 at a concrete history and condition list. -/
theorem c6_required_location_witness :
    (evalCondition [ciSeven] ("10:00".data) (.REQUIRED_LOCATION 7) = true ↔
      ∃ ci ∈ [ciSeven], ci.locationId = 7)
    ∧ evalCondition [ciSeven] ("10:00".data) (.REQUIRED_LOCATION 7)
        = evalCondition [ciSeven] ("23:59".data) (.REQUIRED_LOCATION 7)
    ∧ ((¬ ∃ ci ∈ [ciSeven], ci.locationId = 7) →
        isLocationAvailable [.REQUIRED_LOCATION 7] [ciSeven] ("10:00".data) = false) :=
  c6_required_location [ciSeven] ("10:00".data) ("23:59".data) 7
    [.REQUIRED_LOCATION 7] (by decide)

/-- Claim C7: a TIME_WINDOW condition with local window `s`-`e`, `s <= e`,
passes at local time `t` iff `s <= t` and `t <= e` in the lexicographic order
on "HH:MM" strings, both boundaries inclusive; in particular the window
"09:00"-"17:00" passes at "09:00", "10:00" and "17:00" and fails at "08:00"
and "18:00". -/
theorem c7_time_window (checkIns : List CheckIn) (s e t : List Char) (hse : s ≤ e) :
    (evalCondition checkIns t (.TIME_WINDOW s e) = true ↔ (s ≤ t ∧ t ≤ e))
    ∧ evalCondition [] ("09:00".data) (.TIME_WINDOW ("09:00".data) ("17:00".data)) = true
    ∧ evalCondition [] ("10:00".data) (.TIME_WINDOW ("09:00".data) ("17:00".data)) = true
    ∧ evalCondition [] ("17:00".data) (.TIME_WINDOW ("09:00".data) ("17:00".data)) = true
    ∧ evalCondition [] ("08:00".data) (.TIME_WINDOW ("09:00".data) ("17:00".data)) = false
    ∧ evalCondition [] ("18:00".data) (.TIME_WINDOW ("09:00".data) ("17:00".data)) = false := by
  refine ⟨?_, by decide, by decide, by decide, by decide, by decide⟩
  simp only [evalCondition, Bool.not_eq_true', Bool.or_eq_false_iff,
    decide_eq_false_iff_not, not_lt]

/-- Witness for C7 at the concrete window of the claim. -/
theorem c7_time_window_witness :
    (evalCondition [] ("10:00".data) (.TIME_WINDOW ("09:00".data) ("17:00".data)) = true ↔
      ("09:00".data ≤ "10:00".data ∧ "10:00".data ≤ "17:00".data)) :=
  (c7_time_window [] ("09:00".data) ("17:00".data) ("10:00".data) (by decide)).1

/-! ## Claims about the storage operations (database-service.ts) -/

/-- Claim C3: when no CheckIn exists for a (user, hunt, location) triple, the
first `createCheckIn` succeeds and leaves exactly one CheckIn record for the
triple, and a second `createCheckIn` for the same triple throws
`Already checked in to this location` and performs no write (it returns only
the error and no new storage state). -/
theorem c3_no_double_checkin (db : DB) (u h loc id1 t1 id2 t2 : Nat)
    (hnone : getCheckIn db u h loc = none) :
    ∃ db', createCheckIn db u h loc id1 t1 = .ok db'
      ∧ countTriple db u h loc = 0
      ∧ countTriple db' u h loc = 1
      ∧ createCheckIn db' u h loc id2 t2 = .error "Already checked in to this location" := by
  have hfilter : db.checkIns.filter
      (fun ci => ci.userId == u && ci.huntId == h && ci.locationId == loc) = [] := by
    unfold getCheckIn at hnone
    exact List.head?_eq_none_iff.1 hnone
  refine ⟨{ db with checkIns := db.checkIns ++
      [{ checkInId := id1, userId := u, huntId := h, locationId := loc,
         timestamp := t1 }] }, ?_, ?_, ?_, ?_⟩
  · unfold createCheckIn
    rw [hnone]
  · unfold countTriple
    rw [hfilter]
    rfl
  · unfold countTriple
    simp [List.filter_append, hfilter]
  · unfold createCheckIn getCheckIn
    simp [List.filter_append, hfilter]

/-- Witness for C3 starting from empty storage. -/
theorem c3_no_double_checkin_witness :
    ∃ db', createCheckIn ⟨[], [], []⟩ 0 0 0 1 5 = .ok db'
      ∧ countTriple ⟨[], [], []⟩ 0 0 0 = 0
      ∧ countTriple db' 0 0 0 = 1
      ∧ createCheckIn db' 0 0 0 2 6 = .error "Already checked in to this location" :=
  c3_no_double_checkin ⟨[], [], []⟩ 0 0 0 1 5 2 6 (by decide)

/-- Claim C9: when a STARTED PlayerHunt already exists for a (user, hunt)
pair, `startPlayerHunt` throws `Hunt already started by this player` and
creates no record; moreover starting preserves the invariant that the pair
has at most one STARTED record. -/
theorem c9_duplicate_start (db : DB) (u h newId now : Nat) :
    ((∃ ph ∈ db.playerHunts, ph.userId = u ∧ ph.huntId = h ∧ ph.status = .STARTED) →
      startPlayerHunt db u h newId now = .error "Hunt already started by this player")
    ∧ (∀ db', startPlayerHunt db u h newId now = .ok db' →
        countStartedPair db' u h = 1) := by
  constructor
  · rintro ⟨ph, hm, hu, hh, hs⟩
    have hmemf : ph ∈ db.playerHunts.filter (fun p => p.userId == u && p.huntId == h) :=
      List.mem_filter.2 ⟨hm, by simp [hu, hh]⟩
    unfold startPlayerHunt
    cases hgp : getPlayerHunt db u h with
    | some p => rfl
    | none =>
      exfalso
      unfold getPlayerHunt at hgp
      rw [List.head?_eq_none_iff] at hgp
      rw [hgp] at hmemf
      exact absurd hmemf (List.not_mem_nil _)
  · intro db' hok
    unfold startPlayerHunt at hok
    cases hgp : getPlayerHunt db u h with
    | some p => rw [hgp] at hok; exact absurd hok (by simp)
    | none =>
      rw [hgp] at hok
      have hdb : ({ db with playerHunts := db.playerHunts ++
          [{ playerHuntId := newId, userId := u, huntId := h,
             status := .STARTED, startTime := now, completionTime := none }] } : DB) = db' := by
        injection hok
      subst hdb
      unfold getPlayerHunt at hgp
      rw [List.head?_eq_none_iff] at hgp
      have hnil : db.playerHunts.filter
          (fun p => p.userId == u && p.huntId == h && p.status == PlayerHuntStatus.STARTED) = [] := by
        rw [List.filter_eq_nil_iff]
        intro a ha hpa
        have hpair := List.filter_eq_nil_iff.1 hgp a ha
        apply hpair
        simp only [Bool.and_eq_true] at hpa ⊢
        exact ⟨hpa.1.1, hpa.1.2⟩
      unfold countStartedPair
      simp [List.filter_append, hnil]

/-- Witness for C9: starting an already-started hunt fails. -/
theorem c9_duplicate_start_witness :
    startPlayerHunt dbStarted 0 0 9 9 = .error "Hunt already started by this player" :=
  (c9_duplicate_start dbStarted 0 0 9 9).1 (by decide)

/-- Claim C5 (evaluation of the code at the failing input): the stored status
of PlayerHunt 3 is COMPLETED, yet `updatePlayerHuntStatus` with a new status
STARTED succeeds and overwrites the stored terminal status, instead of
failing and leaving the record unchanged as the claim requires. -/
theorem c5_terminal_not_enforced :
    statusOf dbCompleted 3 = some .COMPLETED
    ∧ statusOf (updatePlayerHuntStatus dbCompleted 3 .STARTED false 9) 3 = some .STARTED
    ∧ updatePlayerHuntStatus dbCompleted 3 .ABANDONED false 9 ≠ dbCompleted := by
  refine ⟨rfl, rfl, ?_⟩
  decide

/-- Claim C4: the progress computation returns `total` = the number of
checkpoints of the hunt, `completed` = the number of distinct checkpoints
with a CheckIn of the player for the hunt (the stored check-in list is
duplicate-free by the C3 invariant, stated here as the `Nodup` hypothesis),
and `percentage = round(completed / total * 100)` when `total > 0` and `0`
when `total = 0`; it is total and never divides by zero. -/
theorem c4_progress (db : DB) (u h : Nat)
    (hnodup : ((getHuntCheckIns db.checkIns u h).map (fun ci => ci.locationId)).Nodup) :
    getHuntProgress db u h =
      { completed :=
          ((getHuntCheckIns db.checkIns u h).map (fun ci => ci.locationId)).dedup.length,
        total := (getHuntLocations db.locations h).length,
        percentage :=
          if 0 < (getHuntLocations db.locations h).length then
            jsRound
              ((((getHuntCheckIns db.checkIns u h).map
                  (fun ci => ci.locationId)).dedup.length : ℚ)
                / ((getHuntLocations db.locations h).length : ℚ) * 100)
          else 0 } := by
  rw [List.Nodup.dedup hnodup, List.length_map]
  rfl

/-- Witness for C4 at a one-checkpoint hunt with one check-in. -/
theorem c4_progress_witness :
    getHuntProgress ⟨[{ locationId := 7, huntId := 0 }], [ciSeven], []⟩ 0 0 =
      { completed :=
          ((getHuntCheckIns [ciSeven] 0 0).map (fun ci => ci.locationId)).dedup.length,
        total := (getHuntLocations [{ locationId := 7, huntId := 0 }] 0).length,
        percentage :=
          if 0 < (getHuntLocations [{ locationId := 7, huntId := 0 }] 0).length then
            jsRound
              ((((getHuntCheckIns [ciSeven] 0 0).map
                  (fun ci => ci.locationId)).dedup.length : ℚ)
                / ((getHuntLocations [{ locationId := 7, huntId := 0 }] 0).length : ℚ) * 100)
          else 0 } :=
  c4_progress ⟨[{ locationId := 7, huntId := 0 }], [ciSeven], []⟩ 0 0 (by decide)

theorem applyStatusUpdate_playerHuntId (phId : Nat) (st : PlayerHuntStatus) (b : Bool)
    (now : Nat) (ph : PlayerHunt) :
    (applyStatusUpdate phId st b now ph).playerHuntId = ph.playerHuntId := by
  unfold applyStatusUpdate
  split <;> rfl

theorem find?_map_applyStatusUpdate (l : List PlayerHunt) (phId : Nat)
    (st : PlayerHuntStatus) (b : Bool) (now : Nat) :
    (l.map (applyStatusUpdate phId st b now)).find? (fun ph => ph.playerHuntId == phId)
      = (l.find? (fun ph => ph.playerHuntId == phId)).map
          (applyStatusUpdate phId st b now) := by
  induction l with
  | nil => rfl
  | cons a l ih =>
    simp only [List.map_cons, List.find?_cons, applyStatusUpdate_playerHuntId]
    cases ha : (a.playerHuntId == phId) with
    | true => rfl
    | false => exact ih

theorem statusOf_update_of_found (db : DB) (phId : Nat) (st : PlayerHuntStatus)
    (b : Bool) (now : Nat) (ph : PlayerHunt)
    (hf : db.playerHunts.find? (fun p => p.playerHuntId == phId) = some ph) :
    statusOf (updatePlayerHuntStatus db phId st b now) phId = some st
    ∧ completionTimeOf (updatePlayerHuntStatus db phId st b now) phId
        = some (if b && (st == .COMPLETED) then some now else ph.completionTime) := by
  have hid : (ph.playerHuntId == phId) = true := by
    have hp := List.find?_some hf
    simpa using hp
  unfold statusOf completionTimeOf updatePlayerHuntStatus
  rw [find?_map_applyStatusUpdate, hf]
  constructor <;> simp [applyStatusUpdate, hid]

/-- Rounding arithmetic of the completion trigger: with `t` checkpoints and a
new check-in count of `c + 1 <= t`, the rounded percentage reaches 100 iff
`199 * t <= 200 * (c + 1)`. -/
theorem jsRound_pct_eq_100_iff (c t : ℕ) (ht : 0 < t) (hle : c + 1 ≤ t) :
    (jsRound (((c : ℚ) + 1) / (t : ℚ) * 100) = 100 ↔ 199 * t ≤ 200 * (c + 1)) := by
  have htq : (0 : ℚ) < (t : ℚ) := by exact_mod_cast ht
  have hleq : ((c : ℚ) + 1) ≤ (t : ℚ) := by exact_mod_cast hle
  have hq : ((c : ℚ) + 1) / (t : ℚ) * 100 = (((c : ℚ) + 1) * 100) / (t : ℚ) := by ring
  unfold jsRound
  rw [Int.floor_eq_iff, hq]
  constructor
  · rintro ⟨h1, -⟩
    have h2 : (199 : ℚ) / 2 ≤ (((c : ℚ) + 1) * 100) / (t : ℚ) := by
      push_cast at h1 ⊢
      linarith
    rw [le_div_iff₀ htq] at h2
    have h3 : (199 : ℚ) * (t : ℚ) ≤ 200 * ((c : ℚ) + 1) := by linarith
    exact_mod_cast h3
  · intro hx
    have hx' : (199 : ℚ) * (t : ℚ) ≤ 200 * ((c : ℚ) + 1) := by exact_mod_cast hx
    have h2 : (199 : ℚ) / 2 * (t : ℚ) ≤ ((c : ℚ) + 1) * 100 := by linarith
    rw [← le_div_iff₀ htq] at h2
    have h4 : (((c : ℚ) + 1) * 100) / (t : ℚ) ≤ 100 := by
      rw [div_le_iff₀ htq]
      nlinarith
    constructor
    · push_cast
      linarith
    · push_cast
      linarith

/-- Core completion-trigger lemma: after a successful check-in the PlayerHunt
becomes COMPLETED (with completion timestamp) exactly when the rounded
percentage reaches 100, i.e. exactly when `199 * total <= 200 * (completed + 1)`. -/
theorem handleCheckIn_completion_iff (db : DB) (u h loc phId newId now : Nat)
    (hnone : getCheckIn db u h loc = none)
    (hstarted : statusOf db phId = some .STARTED)
    (htotal : 0 < (getHuntLocations db.locations h).length)
    (hle : (getHuntCheckIns db.checkIns u h).length + 1
        ≤ (getHuntLocations db.locations h).length) :
    (statusOf (handleCheckIn db u h loc phId newId now) phId = some .COMPLETED
      ↔ 199 * (getHuntLocations db.locations h).length
          ≤ 200 * ((getHuntCheckIns db.checkIns u h).length + 1))
    ∧ (statusOf (handleCheckIn db u h loc phId newId now) phId = some .COMPLETED
        → completionTimeOf (handleCheckIn db u h loc phId newId now) phId
            = some (some now)) := by
  rcases Option.map_eq_some'.1 hstarted with ⟨ph0, hf0, hst0⟩
  have hcc : createCheckIn db u h loc newId now
      = .ok { db with checkIns := db.checkIns ++ [newCheckInRec u h loc newId now] } := by
    unfold createCheckIn
    rw [hnone]
    rfl
  have hhc : handleCheckIn db u h loc phId newId now
      = (if (getHuntProgress
            { db with checkIns := db.checkIns ++ [newCheckInRec u h loc newId now] }
            u h).percentage = 100 then
          updatePlayerHuntStatus
            { db with checkIns := db.checkIns ++ [newCheckInRec u h loc newId now] }
            phId .COMPLETED true now
        else { db with checkIns := db.checkIns ++ [newCheckInRec u h loc newId now] }) := by
    unfold handleCheckIn
    rw [hcc]
  have hc' : (getHuntCheckIns (db.checkIns ++ [newCheckInRec u h loc newId now]) u h).length
      = (getHuntCheckIns db.checkIns u h).length + 1 := by
    unfold getHuntCheckIns
    rw [List.filter_append, List.length_append]
    simp [newCheckInRec]
  have hpct : (getHuntProgress
      { db with checkIns := db.checkIns ++ [newCheckInRec u h loc newId now] }
      u h).percentage
      = jsRound ((((getHuntCheckIns db.checkIns u h).length : ℚ) + 1)
          / ((getHuntLocations db.locations h).length : ℚ) * 100) := by
    show (if (getHuntLocations db.locations h).length > 0 then
        jsRound (((getHuntCheckIns (db.checkIns ++ [newCheckInRec u h loc newId now]) u h).length : ℚ)
          / ((getHuntLocations db.locations h).length : ℚ) * 100) else 0) = _
    rw [hc', if_pos htotal]
    push_cast
    ring_nf
  by_cases hp : (getHuntProgress
      { db with checkIns := db.checkIns ++ [newCheckInRec u h loc newId now] }
      u h).percentage = 100
  · rw [hhc, if_pos hp]
    have hf' : ({ db with checkIns := db.checkIns ++ [newCheckInRec u h loc newId now] }
        : DB).playerHunts.find? (fun p => p.playerHuntId == phId) = some ph0 := hf0
    obtain ⟨hst, hct⟩ :=
      statusOf_update_of_found _ phId .COMPLETED true now ph0 hf'
    constructor
    · rw [hst]
      constructor
      · intro _
        rw [hpct] at hp
        exact (jsRound_pct_eq_100_iff _ _ htotal hle).1 hp
      · intro _
        rfl
    · intro _
      rw [hct]
      simp
  · rw [hhc, if_neg hp]
    have hstat' : statusOf
        { db with checkIns := db.checkIns ++ [newCheckInRec u h loc newId now] } phId
        = some .STARTED := hstarted
    constructor
    · rw [hstat']
      constructor
      · intro hcontra
        exact absurd hcontra (by simp)
      · intro hx
        exfalso
        apply hp
        rw [hpct]
        exact (jsRound_pct_eq_100_iff _ _ htotal hle).2 hx
    · intro hcontra
      rw [hstat'] at hcontra
      exact absurd hcontra (by simp)

/-- Claim C2 (amended): for a player with a STARTED PlayerHunt (document id
`phId`) and a hunt with `t > 0` checkpoints, a successful check-in that brings
the distinct check-in count to `c + 1 <= t` transitions the PlayerHunt to
COMPLETED with its completion timestamp set exactly when the rounded
percentage reaches 100, i.e. exactly when `199 * t <= 200 * (c + 1)`.  For
`t <= 199` checkpoints this is exactly the final distinct check-in, but for
larger hunts the trigger can fire one check-in early. -/
theorem c2_completion_trigger (db : DB) (u h loc phId newId now : Nat)
    (hnone : getCheckIn db u h loc = none)
    (hstarted : statusOf db phId = some .STARTED)
    (htotal : 0 < (getHuntLocations db.locations h).length)
    (hle : (getHuntCheckIns db.checkIns u h).length + 1
        ≤ (getHuntLocations db.locations h).length) :
    (statusOf (handleCheckIn db u h loc phId newId now) phId = some .COMPLETED
      ↔ 199 * (getHuntLocations db.locations h).length
          ≤ 200 * ((getHuntCheckIns db.checkIns u h).length + 1))
    ∧ (statusOf (handleCheckIn db u h loc phId newId now) phId = some .COMPLETED
        → completionTimeOf (handleCheckIn db u h loc phId newId now) phId
            = some (some now)) :=
  handleCheckIn_completion_iff db u h loc phId newId now hnone hstarted htotal hle

/-- Witness for the amended C2 on the two-checkpoint hunt: the second distinct
check-in completes the hunt. -/
theorem c2_completion_trigger_witness :
    (statusOf (handleCheckIn dbTwo 0 0 1 3 5 9) 3 = some .COMPLETED
      ↔ 199 * (getHuntLocations dbTwo.locations 0).length
          ≤ 200 * ((getHuntCheckIns dbTwo.checkIns 0 0).length + 1))
    ∧ (statusOf (handleCheckIn dbTwo 0 0 1 3 5 9) 3 = some .COMPLETED
        → completionTimeOf (handleCheckIn dbTwo 0 0 1 3 5 9) 3 = some (some 9)) :=
  c2_completion_trigger dbTwo 0 0 1 3 5 9 (by decide) (by decide) (by decide) (by decide)

set_option maxRecDepth 40000 in
/-- Claim C2 (counterexample): on the 201-checkpoint hunt, the player has
checked in exactly at the 199 distinct locations 0 to 198 and location 199 is
not yet checked in, so the successful check-in at location 199 is only the
200th distinct checkpoint of 201; yet the PlayerHunt transitions to
COMPLETED, because `Math.round(200 / 201 * 100) = 100` fires the completion
transition before the Nth distinct check-in. -/
theorem c2_completion_counterexample :
    (getHuntLocations dbBig.locations 0).length = 201
    ∧ (getHuntCheckIns dbBig.checkIns 0 0).map (fun ci => ci.locationId) = List.range 199
    ∧ getCheckIn dbBig 0 0 199 = none
    ∧ statusOf dbBig 3 = some .STARTED
    ∧ statusOf (handleCheckIn dbBig 0 0 199 3 500 9) 3 = some .COMPLETED := by
  refine ⟨by decide, by decide, by decide, by decide, ?_⟩
  exact (handleCheckIn_completion_iff dbBig 0 0 199 3 500 9 (by decide) (by decide)
    (by decide) (by decide)).1.2 (by decide)

theorem parseDigits_pad2 : ∀ n, n < 100 → parseDigits (pad2 n) = some n := by decide

theorem pad2_mem_ne_colon : ∀ n, n < 100 → ∀ c ∈ pad2 n, c ≠ ':' := by decide

theorem splitCh_no_sep (sep : Char) (l : List Char) (acc : List Char)
    (hl : ∀ c ∈ l, c ≠ sep) :
    splitCh sep l acc = [acc.reverse ++ l] := by
  induction l generalizing acc with
  | nil => simp [splitCh]
  | cons c cs ih =>
    have hc : c ≠ sep := hl c (by simp)
    simp only [splitCh, if_neg hc, List.append_eq]
    rw [ih _ (fun x hx => hl x (by simp [hx]))]
    simp

theorem splitCh_append_sep (sep : Char) (l rest acc : List Char)
    (hl : ∀ c ∈ l, c ≠ sep) :
    splitCh sep (l ++ sep :: rest) acc = (acc.reverse ++ l) :: splitCh sep rest [] := by
  induction l generalizing acc with
  | nil => simp [splitCh]
  | cons c cs ih =>
    have hc : c ≠ sep := hl c (by simp)
    simp only [List.cons_append, splitCh, if_neg hc, List.append_eq]
    rw [ih _ (fun x hx => hl x (by simp [hx]))]
    simp

/-- Claim C10: for every valid minute-granularity time `HH:MM` and every
fixed whole-minute offset, converting local to UTC and back yields the
original string, even though `convertLocalTimeToUTC` emits an `HH:MM:00`
string whose trailing seconds field `convertUTCTimeToLocal` ignores. -/
theorem c10_time_roundtrip (offset : Int) (hours minutes : Nat)
    (hh : hours < 24) (hm : minutes < 60) :
    (convertLocalTimeToUTC offset (pad2 hours ++ ':' :: pad2 minutes)).bind
        (convertUTCTimeToLocal offset)
      = some (pad2 hours ++ ':' :: pad2 minutes) := by
  have hsplit1 : splitCh ':' (pad2 hours ++ ':' :: pad2 minutes) []
      = [pad2 hours, pad2 minutes] := by
    rw [splitCh_append_sep ':' (pad2 hours) (pad2 minutes) []
        (pad2_mem_ne_colon hours (by omega)),
      splitCh_no_sep ':' (pad2 minutes) [] (pad2_mem_ne_colon minutes (by omega))]
    simp
  have hp1 := parseDigits_pad2 hours (by omega)
  have hp2 := parseDigits_pad2 minutes (by omega)
  simp only [convertLocalTimeToUTC, hsplit1, hp1, hp2]
  rw [Option.some_bind]
  set u : Int := ((hours : Int) * 60 + (minutes : Int) - offset) % 1440 with hu
  have hsplit2 : splitCh ':'
      (pad2 (u / 60).toNat ++ ':' :: (pad2 (u % 60).toNat ++ [':', '0', '0'])) []
      = [pad2 (u / 60).toNat, pad2 (u % 60).toNat, ['0', '0']] := by
    rw [splitCh_append_sep ':' (pad2 (u / 60).toNat)
        (pad2 (u % 60).toNat ++ [':', '0', '0']) []
        (pad2_mem_ne_colon _ (by omega)),
      splitCh_append_sep ':' (pad2 (u % 60).toNat) (['0', '0']) []
        (pad2_mem_ne_colon _ (by omega)),
      splitCh_no_sep ':' ['0', '0'] [] (by decide)]
    simp
  have hpu := parseDigits_pad2 (u / 60).toNat (by omega)
  have hpv := parseDigits_pad2 (u % 60).toNat (by omega)
  simp only [convertUTCTimeToLocal, hsplit2, hpu, hpv]
  have hl : (((u / 60).toNat : Int) * 60 + ((u % 60).toNat : Int) + offset) % 1440
      = (hours : Int) * 60 + (minutes : Int) := by omega
  rw [hl]
  have h1 : ((((hours : Int) * 60 + (minutes : Int)) / 60).toNat) = hours := by omega
  have h2 : ((((hours : Int) * 60 + (minutes : Int)) % 60).toNat) = minutes := by omega
  rw [h1, h2]

/-- Witness for C10 at 09:30 local and a +90 minute offset. -/
theorem c10_time_roundtrip_witness :
    (convertLocalTimeToUTC 90 (pad2 9 ++ ':' :: pad2 30)).bind (convertUTCTimeToLocal 90)
      = some (pad2 9 ++ ':' :: pad2 30) :=
  c10_time_roundtrip 90 9 30 (by decide) (by decide)

theorem atan2_sin_cos (t : ℝ) (h1 : -(Real.pi / 2) < t) (h2 : t < Real.pi / 2) :
    atan2 (Real.sin t) (Real.cos t) = t := by
  have hcos : 0 < Real.cos t := Real.cos_pos_of_mem_Ioo ⟨h1, h2⟩
  unfold atan2
  rw [if_pos hcos, ← Real.tan_eq_sin_div_cos, Real.arctan_tan h1 h2]

/-- On a meridian (equal longitudes, latitudes 0 and `0 < d < 90`), the
haversine formula reduces to arc length `R * (d * pi / 180)`. -/
theorem calculateDistance_meridian (d : ℝ) (hd0 : 0 < d) (hdsmall : d < 90) :
    calculateDistance 0 0 d 0 = 6371000 * (d * Real.pi / 180) := by
  have hpi := Real.pi_pos
  unfold calculateDistance
  simp only [Real.sin_zero, Real.cos_zero, sub_zero, zero_sub, zero_mul, one_mul,
    mul_zero, neg_zero, zero_div, add_zero]
  set t : ℝ := d * Real.pi / 180 / 2 with hts
  have ht0 : 0 < t := by rw [hts]; positivity
  have htlt : t < Real.pi / 2 := by
    rw [hts]
    nlinarith [mul_pos (show (0:ℝ) < 180 - d by linarith) hpi]
  have htle : t ≤ Real.pi := by
    rw [hts]
    nlinarith [mul_pos (show (0:ℝ) < 360 - d by linarith) hpi]
  have hsin : 0 ≤ Real.sin t := Real.sin_nonneg_of_nonneg_of_le_pi (le_of_lt ht0) htle
  have hcos : 0 < Real.cos t := Real.cos_pos_of_mem_Ioo ⟨by linarith, htlt⟩
  have h1a : 1 - Real.sin t * Real.sin t = Real.cos t * Real.cos t := by
    have hsc := Real.sin_sq_add_cos_sq t
    nlinarith [hsc]
  rw [h1a, Real.sqrt_mul_self hsin, Real.sqrt_mul_self (le_of_lt hcos)]
  rw [atan2_sin_cos t (by linarith) htlt]
  rw [hts]
  ring

/-- The point at latitude 0.0003, longitude 0 is about 33.4 meters from the
origin: within the 50 meter proximity threshold. -/
theorem dist_00003_le_50 : calculateDistance 0 0 (3 / 10000) 0 ≤ 50 := by
  rw [calculateDistance_meridian (3 / 10000) (by norm_num) (by norm_num)]
  have hpi315 : Real.pi < 3.15 := Real.pi_lt_d2
  have hpi := Real.pi_pos
  nlinarith

/-- Claim C1 (evaluation of the code at the failing input): a player at
(0, 0) attempting to check in at a checkpoint at (0.0003, 0) is within the
50 meter haversine threshold, and the part_007 gate admits the check-in, but
the part_006 copy of `isUserNearLocation` rejects it (its `handleCheckIn`
alerts `Too Far`), contradicting the claim that rejection happens exactly
when the haversine distance exceeds 50 meters. -/
theorem c1_proximity_divergence :
    calculateDistance 0 0 (3 / 10000) 0 ≤ 50
    ∧ Part007.isUserNearLocation 0 0 (3 / 10000) 0
    ∧ ¬ Part006.isUserNearLocation 0 0 (3 / 10000) 0 := by
  refine ⟨dist_00003_le_50, dist_00003_le_50, ?_⟩
  rintro ⟨h1, -⟩
  have habs : |(0:ℝ) - 3 / 10000| = 3 / 10000 := by
    rw [abs_sub_comm, sub_zero]
    exact abs_of_nonneg (by norm_num)
  rw [habs] at h1
  norm_num at h1
